import Mathlib

/-!
Verification of the periodic tidal-forcing logic of the notebook
"2D channel with time-dependent boundary conditions".

The notebook's own logic is: a time-dependent flux function `timedep_flux`,
a mutable scalar `tide_flux_const` initialised with `timedep_flux 0`, a
boundary-condition dictionary `swe_bnd`, and a per-step callback
`update_forcings` that reassigns the scalar and plots the elevation field
at four fixed trigger times.  We embed this shallowly over the reals:
floating-point simulation times and flux values become `ℝ`, the mutable
state becomes an explicit state record threaded through the callback, and
each `plot(elev)` call is counted.
-/

noncomputable section

namespace Channel2D

/-- Simulation end time: `t_end = 2 * 3600` (cell 11 of the notebook). -/
def t_end : ℝ := 2 * 3600

/-- Export interval: `t_export = 100.0` (cell 11). -/
def t_export : ℝ := 100.0

/-- Time-step size: `options.timestep = 50.0` (cell 13). -/
def options_timestep : ℝ := 50.0

/-- Simulation end time option: `options.simulation_end_time = t_end` (cell 11). -/
def options_simulation_end_time : ℝ := t_end

/-- Left boundary identifier: `left_bnd_id = 1` (cell 15). -/
def left_bnd_id : ℕ := 1

/-- Right boundary identifier: `right_bnd_id = 2` (cell 15). -/
def right_bnd_id : ℕ := 2

/-- Baseline inflow flux: `in_flux = 1e3` (cell 17). -/
def in_flux : ℝ := 1e3

/-- Tidal amplitude: `tide_amp = -2e3` (local in `timedep_flux`, cell 19). -/
def tide_amp : ℝ := -2e3

/-- Tidal period: `tide_t = 12 * 3600.` (local in `timedep_flux`, cell 19). -/
def tide_t : ℝ := 12 * 3600

/-- The time-dependent flux function (cell 19):
`flux = tide_amp*sin(2 * pi * simulation_time / tide_t) + in_flux`. -/
def timedep_flux (simulation_time : ℝ) : ℝ :=
  tide_amp * Real.sin (2 * Real.pi * simulation_time / tide_t) + in_flux

/-- A boundary-condition value stored in `swe_bnd`: either a plain Firedrake
`Constant` with a fixed numeric value, or the shared reference to the mutable
`tide_flux_const` scalar. -/
inductive BCValue where
  | const : ℝ → BCValue
  | tideRef : BCValue
deriving DecidableEq

/-- The boundary-condition dictionary as built in cells 17 and 21:
`swe_bnd[right_bnd_id] = {'elev': Constant(0.0), 'flux': Constant(-in_flux)}`
then `swe_bnd[left_bnd_id] = {'flux': tide_flux_const}`. -/
def swe_bnd_init : List (ℕ × List (String × BCValue)) :=
  [(right_bnd_id, [("elev", BCValue.const 0.0), ("flux", BCValue.const (-in_flux))]),
   (left_bnd_id, [("flux", BCValue.tideRef)])]

/-- The mutable simulation state touched by the callback: the contents of the
`tide_flux_const` Firedrake `Constant`, and the boundary-condition dictionary
(which the callback never rewrites, but which is in principle mutable state). -/
structure SimState where
  tide_flux_const : ℝ
  swe_bnd : List (ℕ × List (String × BCValue))

/-- Initial state: `tide_flux_const = Constant(timedep_flux(0))` (cell 21),
with the boundary dictionary as assembled in cells 17 and 21. -/
def initState : SimState :=
  ⟨timedep_flux 0, swe_bnd_init⟩

/-- The trigger instants `plot_time = [1000,2000,4000,7000]` (cell 25). -/
def plot_time : List ℝ := [1000, 2000, 4000, 7000]

/-- The callback `update_forcings(t_new)` (cell 25): assigns
`tide_flux_const.assign(timedep_flux(t_new))`, then loops over `plot_time`
and calls `plot(elev)` for every `i` with `t_new == i`.  The second component
of the result counts the `plot(elev)` invocations performed. -/
def update_forcings (t_new : ℝ) (s : SimState) : SimState × ℕ :=
  (⟨timedep_flux t_new, s.swe_bnd⟩,
   List.foldl (fun n i => if t_new = i then n + 1 else n) 0 plot_time)

/-- Helper: the plot-call count of `update_forcings` is the sum of the four
exact-equality indicators over `plot_time`. -/
theorem update_forcings_count_eq (t : ℝ) (s : SimState) :
    (update_forcings t s).2 =
      (((if t = 1000 then 1 else 0) + (if t = 2000 then 1 else 0)) +
        (if t = 4000 then 1 else 0)) + (if t = 7000 then 1 else 0) := by
  simp only [update_forcings, plot_time, List.foldl]
  split_ifs <;> norm_num

/-- C1: for every simulation time `t ≥ 0`, `timedep_flux t` equals
`baseline + amplitude * sin(2*pi*t/period)` with `baseline = in_flux = 1000`,
`amplitude = tide_amp = -2000`, `period = tide_t = 43200`; the embedding is a
pure function of `t`, so there are no side effects. -/
theorem timedep_flux_formula (t : ℝ) (h : 0 ≤ t) :
    timedep_flux t = in_flux + tide_amp * Real.sin (2 * Real.pi * t / tide_t)
      ∧ in_flux = 1000 ∧ tide_amp = -2000 ∧ tide_t = 43200 := by
  refine ⟨?_, ?_, ?_, ?_⟩
  · rw [timedep_flux]; ring
  · norm_num [in_flux]
  · norm_num [tide_amp]
  · norm_num [tide_t]

/-- Witness for C1 at the concrete time `t = 0`. -/
theorem timedep_flux_formula_witness :
    (0 : ℝ) ≤ 0 ∧
      (timedep_flux 0 = in_flux + tide_amp * Real.sin (2 * Real.pi * 0 / tide_t)
        ∧ in_flux = 1000 ∧ tide_amp = -2000 ∧ tide_t = 43200) :=
  ⟨le_refl 0, timedep_flux_formula 0 (le_refl 0)⟩

/-- C4: with the concrete parameters of the code,
`timedep_flux 0 = 1000` (the baseline), `timedep_flux 10800 = -1000`
(quarter period, sine is 1), and `timedep_flux 21600 = 1000`
(half period, sine is 0). -/
theorem timedep_flux_key_values :
    timedep_flux 0 = 1000 ∧ timedep_flux 10800 = -1000 ∧
      timedep_flux 21600 = 1000 := by
  refine ⟨?_, ?_, ?_⟩
  · rw [timedep_flux]
    norm_num [in_flux]
  · rw [timedep_flux]
    have harg : 2 * Real.pi * 10800 / tide_t = Real.pi / 2 := by
      rw [tide_t]; ring
    rw [harg, Real.sin_pi_div_two, tide_amp, in_flux]
    norm_num
  · rw [timedep_flux]
    have harg : 2 * Real.pi * 21600 / tide_t = Real.pi := by
      rw [tide_t]; ring
    rw [harg, Real.sin_pi, in_flux]
    norm_num

/-- C5: `timedep_flux` is periodic with period `tide_t`: for every `t ≥ 0`,
`timedep_flux (t + tide_t) = timedep_flux t`, with no special-casing for `t`
beyond one period. -/
theorem timedep_flux_periodic (t : ℝ) (h : 0 ≤ t) :
    timedep_flux (t + tide_t) = timedep_flux t := by
  rw [timedep_flux, timedep_flux]
  have harg : 2 * Real.pi * (t + tide_t) / tide_t =
      2 * Real.pi * t / tide_t + 2 * Real.pi := by
    rw [tide_t]
    field_simp
    ring
  rw [harg, Real.sin_add_two_pi]

/-- Witness for C5 at the concrete time `t = 0`. -/
theorem timedep_flux_periodic_witness :
    (0 : ℝ) ≤ 0 ∧ timedep_flux (0 + tide_t) = timedep_flux 0 :=
  ⟨le_refl 0, timedep_flux_periodic 0 (le_refl 0)⟩

/-- C2: the forcing state always satisfies the formula at every observed
time: `tide_flux_const` is initialised at `t = 0` with `timedep_flux 0`, and
every call `update_forcings t_new` leaves it holding `timedep_flux t_new`,
which equals `baseline + amplitude * sin(2*pi*t_new/period)`. -/
theorem tide_flux_const_invariant :
    initState.tide_flux_const = timedep_flux 0 ∧
      ∀ (t_new : ℝ) (s : SimState),
        (update_forcings t_new s).1.tide_flux_const = timedep_flux t_new ∧
          (update_forcings t_new s).1.tide_flux_const =
            in_flux + tide_amp * Real.sin (2 * Real.pi * t_new / tide_t) := by
  refine ⟨rfl, fun t_new s => ⟨rfl, ?_⟩⟩
  show timedep_flux t_new = _
  rw [timedep_flux]; ring

/-- C3: `update_forcings t_new` performs the `plot(elev)` observation iff
`t_new` is exactly value-equal to one of the trigger instants
1000, 2000, 4000, 7000; in particular `update_forcings 1000` plots exactly
once while `update_forcings 999` and `update_forcings 1000.5` plot zero
times (exact equality, no tolerance). -/
theorem update_forcings_plot_trigger (t_new : ℝ) (s : SimState) :
    (0 < (update_forcings t_new s).2 ↔
        (t_new = 1000 ∨ t_new = 2000 ∨ t_new = 4000 ∨ t_new = 7000)) ∧
      (update_forcings 1000 s).2 = 1 ∧
      (update_forcings 999 s).2 = 0 ∧
      (update_forcings (1000.5 : ℝ) s).2 = 0 := by
  refine ⟨?_, ?_, ?_, ?_⟩
  · rw [update_forcings_count_eq]
    split_ifs <;> simp_all
  · rw [update_forcings_count_eq]
    norm_num
  · rw [update_forcings_count_eq]
    norm_num
  · rw [update_forcings_count_eq]
    norm_num

/-- C6: `update_forcings` never mutates the boundary-condition mapping: the
`swe_bnd` component of the state is returned unchanged for every `t_new`
and every state, and in particular starting from the initial configuration
the right boundary keeps its elevation constant `0.0` and flux constant
`-in_flux = -1000`; only the `tide_flux_const` scalar is reassigned. -/
theorem update_forcings_preserves_swe_bnd (t_new : ℝ) (s : SimState) :
    (update_forcings t_new s).1.swe_bnd = s.swe_bnd ∧
      (update_forcings t_new initState).1.swe_bnd =
        [(right_bnd_id, [("elev", BCValue.const 0.0),
                         ("flux", BCValue.const (-in_flux))]),
         (left_bnd_id, [("flux", BCValue.tideRef)])] ∧
      -in_flux = -1000 := by
  refine ⟨rfl, rfl, by norm_num [in_flux]⟩

/-- C7: `timedep_flux` is total on all non-negative times, and the callback
has no error branch: both embeddings return a value on every input (the
sine is total, the arithmetic is pure). -/
theorem timedep_flux_total (t : ℝ) (h : 0 ≤ t) :
    (∃ v : ℝ, timedep_flux t = v) ∧
      ∀ s : SimState, ∃ r : SimState × ℕ, update_forcings t s = r :=
  ⟨⟨timedep_flux t, rfl⟩, fun s => ⟨update_forcings t s, rfl⟩⟩

/-- Witness for C7 at the concrete time `t = 0`. -/
theorem timedep_flux_total_witness :
    (0 : ℝ) ≤ 0 ∧
      ((∃ v : ℝ, timedep_flux 0 = v) ∧
        ∀ s : SimState, ∃ r : SimState × ℕ, update_forcings 0 s = r) :=
  ⟨le_refl 0, timedep_flux_total 0 (le_refl 0)⟩

/-- C8: for every `t ≥ 0` the flux stays in
`[in_flux - |tide_amp|, in_flux + |tide_amp|] = [-1000, 3000]`, because the
sine factor is bounded by 1 in absolute value. -/
theorem timedep_flux_bounds (t : ℝ) (h : 0 ≤ t) :
    in_flux - |tide_amp| ≤ timedep_flux t ∧
      timedep_flux t ≤ in_flux + |tide_amp| ∧
      in_flux - |tide_amp| = -1000 ∧ in_flux + |tide_amp| = 3000 := by
  have h1 := Real.neg_one_le_sin (2 * Real.pi * t / tide_t)
  have h2 := Real.sin_le_one (2 * Real.pi * t / tide_t)
  have hamp : |tide_amp| = 2000 := by
    rw [tide_amp]; norm_num
  rw [timedep_flux, hamp, tide_amp, in_flux]
  norm_num
  constructor <;> nlinarith

/-- Witness for C8 at the concrete time `t = 0`. -/
theorem timedep_flux_bounds_witness :
    (0 : ℝ) ≤ 0 ∧
      (in_flux - |tide_amp| ≤ timedep_flux 0 ∧
        timedep_flux 0 ≤ in_flux + |tide_amp| ∧
        in_flux - |tide_amp| = -1000 ∧ in_flux + |tide_amp| = 3000) :=
  ⟨le_refl 0, timedep_flux_bounds 0 (le_refl 0)⟩

/-- C9: every trigger instant in `plot_time` is an exact natural multiple of
the configured time step `options_timestep = 50.0` and does not exceed the
configured end time `options_simulation_end_time = 7200`. -/
theorem plot_time_aligned (i : ℝ) (hi : i ∈ plot_time) :
    (∃ k : ℕ, i = (k : ℝ) * options_timestep) ∧
      i ≤ options_simulation_end_time := by
  fin_cases hi
  · exact ⟨⟨20, by norm_num [options_timestep]⟩,
      by norm_num [options_simulation_end_time, t_end]⟩
  · exact ⟨⟨40, by norm_num [options_timestep]⟩,
      by norm_num [options_simulation_end_time, t_end]⟩
  · exact ⟨⟨80, by norm_num [options_timestep]⟩,
      by norm_num [options_simulation_end_time, t_end]⟩
  · exact ⟨⟨140, by norm_num [options_timestep]⟩,
      by norm_num [options_simulation_end_time, t_end]⟩

/-- Witness for C9 at the concrete trigger instant `1000`. -/
theorem plot_time_aligned_witness :
    (1000 : ℝ) ∈ plot_time ∧
      ((∃ k : ℕ, (1000 : ℝ) = (k : ℝ) * options_timestep) ∧
        (1000 : ℝ) ≤ options_simulation_end_time) :=
  ⟨by simp [plot_time], plot_time_aligned 1000 (by simp [plot_time])⟩

/-- C10: `timedep_flux` and the value-update part of `update_forcings` are
deterministic in the time argument: two invocations with the same `t` give
the same flux, and the resulting `tide_flux_const` contents (and even the
plot count) are identical, independent of any other state. -/
theorem update_forcings_deterministic (t : ℝ) (s₁ s₂ : SimState) :
    timedep_flux t = timedep_flux t ∧
      (update_forcings t s₁).1.tide_flux_const =
        (update_forcings t s₂).1.tide_flux_const ∧
      (update_forcings t s₁).2 = (update_forcings t s₂).2 :=
  ⟨rfl, rfl, rfl⟩

end Channel2D

end
